import Mathlib

/-!
Verification development for the rsp-recorder concurrent buffering/streaming
pipeline (src/buffers.c, src/callbacks.c, src/streaming.c).

Machine integers (`unsigned int`) are modelled as `Nat` with explicit
reduction modulo `2^32` wherever the C arithmetic can wrap.  The three
circular buffers are modelled by their `ResourceDescriptor` bookkeeping
fields; descriptor writes are additionally tracked as an append-only history
list so that emitted block descriptors can be counted.
-/

/-- The value of `UINT_MAX` for a 32-bit `unsigned int`. -/
def UINT_MAX : Nat := 4294967295

/-- Modulus of 32-bit unsigned arithmetic. -/
def U32 : Nat := 4294967296

/-- 32-bit unsigned subtraction `a - b` (C semantics: wraps modulo `2^32`). -/
def usub32 (a b : Nat) : Nat := (U32 + a % U32 - b % U32) % U32

/-- The `StreamingStatus` enumeration from streaming.h. -/
inductive StreamingStatus where
  | UNKNOWN
  | STARTING
  | RUNNING
  | TERMINATE
  | DONE
  | FAILED
  | BLOCKS_BUFFER_FULL
  | SAMPLES_BUFFER_FULL
  | GAIN_CHANGES_BUFFER_FULL
deriving DecidableEq

/-- The bookkeeping fields of a `ResourceDescriptor` (buffers.h).  The mutex,
condition variable and backing array pointer are not part of the counter
state; payload contents are modelled separately where a claim needs them. -/
structure ResourceDescriptor where
  read_index : Nat
  write_index : Nat
  size : Nat
  nused : Nat
  nused_max : Nat
  nready : Nat

/-- A `BlockDescriptor` (buffers.h). -/
structure BlockDescriptor where
  first_sample_num : Nat
  num_samples : Nat
  samples_index : Nat
  rx_id : Char

/-- Result of one reservation attempt in a circular buffer: the updated
descriptor, the `*_has_enough_space` flag, and the write index at which the
payload is placed on success. -/
structure ReserveResult where
  resource : ResourceDescriptor
  has_enough_space : Bool
  write_index_used : Nat

/-- The samples-buffer reservation of `write_samples_to_circular_buffer`
(callbacks.c lines 203-219): compute `samples_nused_max = size - space` in
unsigned arithmetic, skip to index 0 (reducing `samples_nused_max` by the
sacrificed tail `size - write_index`) when the payload would not fit
contiguously, then succeed iff `nused < samples_nused_max`.  On success the
write index advances past the payload and `nused` and `nused_max` are
updated; on failure the resource is not mutated. -/
def samples_reserve (r : ResourceDescriptor) (samples_space_required : Nat) :
    ReserveResult :=
  let nused_max0 := usub32 r.size samples_space_required
  let skip := r.write_index > nused_max0
  let samples_nused_max :=
    if skip then usub32 nused_max0 (usub32 r.size r.write_index) else nused_max0
  let samples_write_index := if skip then 0 else r.write_index
  let samples_has_enough_space := r.nused < samples_nused_max
  if samples_has_enough_space then
    let nused1 := (r.nused + samples_space_required) % U32
    { resource :=
        { r with
          write_index := (samples_write_index + samples_space_required) % U32
          nused := nused1
          nused_max := if nused1 > r.nused_max then nused1 else r.nused_max }
      has_enough_space := true
      write_index_used := samples_write_index }
  else
    { resource := r, has_enough_space := false,
      write_index_used := samples_write_index }

/-- The blocks-buffer reservation of `write_samples_to_circular_buffer`
(callbacks.c lines 228-238): succeed iff `nused < size`; on success advance
the write index modulo `size`, increment `nused` and update `nused_max`. -/
def blocks_reserve (r : ResourceDescriptor) : ReserveResult :=
  let blocks_write_index := r.write_index
  let blocks_has_enough_space := r.nused < r.size
  if blocks_has_enough_space then
    { resource :=
        { r with
          write_index := (r.write_index + 1) % r.size
          nused := r.nused + 1
          nused_max :=
            if r.nused + 1 > r.nused_max then r.nused + 1 else r.nused_max }
      has_enough_space := true
      write_index_used := blocks_write_index }
  else
    { resource := r, has_enough_space := false,
      write_index_used := blocks_write_index }

/-- The gain-changes-buffer reservation of `event_callback` (callbacks.c
lines 64-71): succeed iff `nused < size`; on success advance the write index
modulo `size` and increment `nused` (no `nused_max` update here). -/
def gain_changes_reserve (r : ResourceDescriptor) : ReserveResult :=
  let gain_changes_write_index := r.write_index
  let gain_changes_has_enough_space := r.nused < r.size
  if gain_changes_has_enough_space then
    { resource :=
        { r with
          write_index := (r.write_index + 1) % r.size
          nused := r.nused + 1 }
      has_enough_space := true
      write_index_used := gain_changes_write_index }
  else
    { resource := r, has_enough_space := false,
      write_index_used := gain_changes_write_index }

/-- State touched by one producer invocation: the samples and blocks
resources, the shared streaming status, and the history of block descriptors
written so far (append-only view of the descriptor array writes). -/
structure IngestState where
  samples_resource : ResourceDescriptor
  blocks_resource : ResourceDescriptor
  streaming_status : StreamingStatus
  blocks_written : List BlockDescriptor

/-- `write_samples_to_circular_buffer` (callbacks.c lines 193-267) on the
modelled state: when `num_samples > 0` reserve `2 * num_samples` sample
slots (on overflow set `SAMPLES_BUFFER_FULL` and return `-1` with nothing
mutated); then reserve one block descriptor slot (on overflow set
`BLOCKS_BUFFER_FULL` and return `-1`, the sample reservation staying in
place); finally record the descriptor and increment the blocks `nready`. -/
def write_samples_to_circular_buffer (num_samples first_sample_num : Nat)
    (rx_id : Char) (st : IngestState) : IngestState × Int :=
  let samples_space_required := (2 * num_samples) % U32
  let sres :=
    if num_samples > 0 then samples_reserve st.samples_resource samples_space_required
    else
      { resource := st.samples_resource, has_enough_space := true,
        write_index_used := 0 }
  if num_samples > 0 ∧ ¬sres.has_enough_space then
    ({ st with streaming_status := .SAMPLES_BUFFER_FULL }, -1)
  else
    let bres := blocks_reserve st.blocks_resource
    if ¬bres.has_enough_space then
      ({ st with
          samples_resource := sres.resource
          streaming_status := .BLOCKS_BUFFER_FULL }, -1)
    else
      let block : BlockDescriptor :=
        { first_sample_num := first_sample_num
          num_samples := num_samples
          samples_index := sres.write_index_used
          rx_id := rx_id }
      ({ st with
          samples_resource := sres.resource
          blocks_resource := { bres.resource with nready := bres.resource.nready + 1 }
          blocks_written := st.blocks_written ++ [block] }, 0)

/-- The dropped-sample computation shared by `rx_callback` (callbacks.c lines
126-131) and `stream` (streaming.c lines 104-109): if `next_sample_num <
first_sample_num` the gap is the plain difference, otherwise it is
`UINT_MAX - (first_sample_num - next_sample_num) + 1` where the inner
subtraction wraps modulo `2^32`. -/
def compute_dropped_samples (next_sample_num first_sample_num : Nat) : Nat :=
  if next_sample_num < first_sample_num then
    first_sample_num - next_sample_num
  else
    (UINT_MAX - usub32 first_sample_num next_sample_num + 1) % U32

/-- The expected-next-sequence update shared by `rx_callback` (callbacks.c
lines 136-137) and `stream` (streaming.c lines 124-125):
`nsntmp = (first_sample_num + num_samples) * internal_decimation` in 32-bit
unsigned arithmetic, then `(nsntmp + (nsntmp % 4 < 2)) / internal_decimation`. -/
def next_sample_num_update (first_sample_num num_samples internal_decimation : Nat) :
    Nat :=
  let nsntmp := ((first_sample_num + num_samples) % U32 * internal_decimation) % U32
  ((nsntmp + (if nsntmp % 4 < 2 then 1 else 0)) % U32) / internal_decimation

/-- The per-channel fields of `RXContext` (callbacks.h) that the claims use. -/
structure RXContext where
  next_sample_num : Nat
  internal_decimation : Nat

/-- The per-channel counters of `RXStats` (stats.h) that the claims use. -/
structure RXStats where
  total_samples : Nat
  dropped_samples : Nat

/-- One invocation of the sample ingestor `rx_callback` (callbacks.c lines
94-164), with clock reads and the I/Q min/max scan elided (they touch no
state a claim mentions).  `status_snapshot` is the value of
`streaming_status` read once at entry (callbacks.c lines 32 and 41):
under `TERMINATE` a zero-length end-of-stream block is written; under any
status other than `RUNNING` the invocation is a no-op; otherwise the
statistics, drop accounting and expected-next-sequence are updated and the
samples and descriptor are written to the circular buffers. -/
def rx_callback_step (first_sample_num num_samples : Nat) (rx_id : Char)
    (ctx : RXContext) (stats : RXStats) (st : IngestState)
    (status_snapshot : StreamingStatus) : RXContext × RXStats × IngestState :=
  if status_snapshot = .TERMINATE then
    (ctx, stats, (write_samples_to_circular_buffer 0 first_sample_num rx_id st).1)
  else if status_snapshot ≠ .RUNNING then
    (ctx, stats, st)
  else
    let stats1 := { stats with total_samples := stats.total_samples + num_samples }
    let stats2 :=
      if ctx.next_sample_num ≠ 0xffffffff ∧ first_sample_num ≠ ctx.next_sample_num then
        { stats1 with
          dropped_samples := stats1.dropped_samples +
            compute_dropped_samples ctx.next_sample_num first_sample_num }
      else stats1
    let ctx1 :=
      { ctx with
        next_sample_num :=
          next_sample_num_update first_sample_num num_samples ctx.internal_decimation }
    (ctx1, stats2,
      (write_samples_to_circular_buffer num_samples first_sample_num rx_id st).1)

/-- One invocation of `event_callback` (callbacks.c lines 49-91) restricted
to the gain-changes resource and the streaming status: on a gain-change
event while the status is `STARTING`, `RUNNING` or `TERMINATE`, reserve one
slot; on overflow set `GAIN_CHANGES_BUFFER_FULL`, otherwise record the event
and increment `nready`.  In every other case nothing happens. -/
def event_callback_step (is_gain_change : Bool) (status : StreamingStatus)
    (g : ResourceDescriptor) : ResourceDescriptor × StreamingStatus :=
  if is_gain_change ∧
      (status = .STARTING ∨ status = .RUNNING ∨ status = .TERMINATE) then
    let res := gain_changes_reserve g
    if res.has_enough_space then
      ({ res.resource with nready := res.resource.nready + 1 }, status)
    else
      (g, .GAIN_CHANGES_BUFFER_FULL)
  else
    (g, status)

/-- The guard of the outer consumer loop (streaming.c lines 75 and 182):
the loop continues only while the status is `RUNNING` or `TERMINATE`. -/
def stream_loop_guard : StreamingStatus → Bool
  | .RUNNING => true
  | .TERMINATE => true
  | _ => false

/-- The five terminal lifecycle states of the spec (§4.5). -/
def is_terminal_status : StreamingStatus → Bool
  | .DONE => true
  | .FAILED => true
  | .BLOCKS_BUFFER_FULL => true
  | .SAMPLES_BUFFER_FULL => true
  | .GAIN_CHANGES_BUFFER_FULL => true
  | _ => false

/-- Consumer-side release of descriptor or sample capacity after a frame is
flushed (streaming.c lines 168-179) and of drained gain-change slots
(streaming.c line 319): `nused -= n` in 32-bit unsigned arithmetic. -/
def resource_release (r : ResourceDescriptor) (n : Nat) : ResourceDescriptor :=
  { r with nused := usub32 r.nused n }

/-- The consumer state of `stream` (streaming.c lines 74-190): the running
expected-next-sequence, `stats.output_samples`, the number of interleaved
data frames written, the history of writes to the output sink (each write
is the list of 16-bit values it carries), and the streaming status. -/
structure ConsumerState where
  next_sample_num : Nat
  output_samples : Nat
  frames_written : Nat
  out_writes : List (List Int)
  streaming_status : StreamingStatus

/-- The consumer state at the top of `stream` (streaming.c lines 72-74). -/
def initial_consumer_state : ConsumerState :=
  { next_sample_num := 0xffffffff
    output_samples := 0
    frames_written := 0
    out_writes := []
    streaming_status := .RUNNING }

/-- The single-tuner rearrangement loops of `stream` (streaming.c lines
133-144): pairs `(I_A, Q_A)` read from the sample buffer at
`samples_index + i` and `samples_index + num_samples + i`. -/
def interleave_single (insamples : Nat → Int) (indexA num_samples : Nat) :
    List Int :=
  (List.range num_samples).flatMap fun i =>
    [insamples (indexA + i), insamples (indexA + num_samples + i)]

/-- The dual-tuner rearrangement loops of `stream` (streaming.c lines
133-158): quadruples `(I_A, Q_A, I_B, Q_B)` read from the sample buffer at
the two blocks' payload ranges. -/
def interleave_dual (insamples : Nat → Int) (indexA indexB num_samples : Nat) :
    List Int :=
  (List.range num_samples).flatMap fun i =>
    [insamples (indexA + i), insamples (indexA + num_samples + i),
     insamples (indexB + i), insamples (indexB + num_samples + i)]

/-- The per-frame body of `stream` (streaming.c lines 97-165) after the
descriptors are fetched: end-of-stream detection, gap policy (zero-fill when
the computed gap is at most `zero_sample_gaps_max_size`, silent skip
otherwise), expected-next-sequence update, interleaving and the data write.
`nrx` is the number of tuners, `zero_sample_gaps_max_size` the configured
threshold. -/
def process_frame (nrx internal_decimation zero_sample_gaps_max_size : Nat)
    (insamples : Nat → Int) (s : ConsumerState) (blockA blockB : BlockDescriptor) :
    ConsumerState :=
  let first_sample_num := blockA.first_sample_num
  let num_samples := blockA.num_samples
  if num_samples = 0 then
    { s with streaming_status := .DONE }
  else
    let s1 :=
      if ¬(s.next_sample_num = 0xffffffff ∨ first_sample_num = s.next_sample_num) then
        let dropped_samples := compute_dropped_samples s.next_sample_num first_sample_num
        if dropped_samples ≤ zero_sample_gaps_max_size then
          { s with
            out_writes := s.out_writes ++ [List.replicate (dropped_samples * nrx * 2) 0]
            output_samples := s.output_samples + dropped_samples }
        else s
      else s
    let outsamples :=
      if nrx = 2 then
        interleave_dual insamples blockA.samples_index blockB.samples_index num_samples
      else
        interleave_single insamples blockA.samples_index num_samples
    { s1 with
      next_sample_num :=
        next_sample_num_update first_sample_num num_samples internal_decimation
      out_writes := s1.out_writes ++ [outsamples]
      output_samples := s1.output_samples + num_samples
      frames_written := s1.frames_written + 1 }

/-- One single-tuner inner-loop iteration of `stream` combined with the
descriptor check of `next_block_descriptor_single` (streaming.c lines
212-226): a descriptor whose `rx_id` is not `A` is a protocol error that
sets `FAILED`; otherwise the frame is processed. -/
def stream_iteration_single (internal_decimation zero_sample_gaps_max_size : Nat)
    (insamples : Nat → Int) (s : ConsumerState) (blockA : BlockDescriptor) :
    ConsumerState :=
  if ¬(blockA.rx_id = 'A') then
    { s with streaming_status := .FAILED }
  else
    process_frame 1 internal_decimation zero_sample_gaps_max_size insamples s blockA blockA

/-- One dual-tuner inner-loop iteration of `stream` combined with the
descriptor checks of `next_block_descriptors_dual` (streaming.c lines
228-255): the two descriptors must carry `rx_id` tags `A` then `B`, equal
`first_sample_num` and equal `num_samples`; any mismatch sets `FAILED`,
otherwise the frame is processed. -/
def stream_iteration_dual (internal_decimation zero_sample_gaps_max_size : Nat)
    (insamples : Nat → Int) (s : ConsumerState) (blockA blockB : BlockDescriptor) :
    ConsumerState :=
  if ¬(blockA.rx_id = 'A' ∧ blockB.rx_id = 'B') then
    { s with streaming_status := .FAILED }
  else if ¬(blockA.first_sample_num = blockB.first_sample_num) then
    { s with streaming_status := .FAILED }
  else if ¬(blockA.num_samples = blockB.num_samples) then
    { s with streaming_status := .FAILED }
  else
    process_frame 2 internal_decimation zero_sample_gaps_max_size insamples s blockA blockB

/-- The single-tuner consumer drain of a list of block descriptors: each
descriptor is one frame; a frame is processed only while the loop guard
holds (streaming.c lines 75 and 182). -/
def consume_run (internal_decimation zero_sample_gaps_max_size : Nat)
    (insamples : Nat → Int) (s : ConsumerState) (blocks : List BlockDescriptor) :
    ConsumerState :=
  blocks.foldl
    (fun s b =>
      if stream_loop_guard s.streaming_status then
        stream_iteration_single internal_decimation zero_sample_gaps_max_size insamples s b
      else s)
    s

/-- The total number of zero-filled gap samples the consumer synthesizes
while draining `blocks`, starting from expected-next-sequence `nxt`: a gap is
filled exactly when it is detected (`nxt` initialized and different from the
block's `first_sample_num`) and its computed size is at most the threshold. -/
def zero_fill_total (internal_decimation zero_sample_gaps_max_size : Nat) :
    Nat → List BlockDescriptor → Nat
  | _, [] => 0
  | nxt, b :: rest =>
    let fill :=
      if ¬(nxt = 0xffffffff ∨ b.first_sample_num = nxt) then
        let d := compute_dropped_samples nxt b.first_sample_num
        if d ≤ zero_sample_gaps_max_size then d else 0
      else 0
    fill + zero_fill_total internal_decimation zero_sample_gaps_max_size
      (next_sample_num_update b.first_sample_num b.num_samples internal_decimation) rest

/-- The resource bookkeeping as initialized by `buffers_create` (buffers.c
lines 59-69, 82-92, 131-141): indices and counters start at zero. -/
def buffers_create_resource (capacity : Nat) : ResourceDescriptor :=
  { read_index := 0, write_index := 0, size := capacity,
    nused := 0, nused_max := 0, nready := 0 }

/-- The spec-side reservation contract (§4.1, refinement comparison):
a reservation of size `k` succeeds iff `used + k ≤ capacity`, where for the
sample buffer the capacity is reduced by any skipped unusable tail. -/
def spec_reserve_succeeds (used k capacity tail : Nat) : Prop :=
  used + k ≤ capacity - tail

/-- The unusable tail the sample buffer sacrifices when a payload of size
`k` would not fit contiguously before the end of the array. -/
def samples_skipped_tail (r : ResourceDescriptor) (k : Nat) : Nat :=
  if r.write_index + k > r.size then r.size - r.write_index else 0

/-- Non-overlapping monotonically increasing block sequence numbers: each
block starts at or after the end of the previous one. -/
def blocks_seq_monotone : List BlockDescriptor → Bool
  | b :: c :: rest =>
    decide (b.first_sample_num + b.num_samples ≤ c.first_sample_num) &&
      blocks_seq_monotone (c :: rest)
  | _ => true

/-- The number of zero-fill samples the gap policy synthesizes for one
frame: the computed gap when it is detected and at most the threshold,
otherwise zero. -/
def gap_fill_amount (zero_sample_gaps_max_size nxt first_sample_num : Nat) : Nat :=
  if ¬(nxt = 0xffffffff ∨ first_sample_num = nxt) then
    if compute_dropped_samples nxt first_sample_num ≤ zero_sample_gaps_max_size then
      compute_dropped_samples nxt first_sample_num
    else 0
  else 0

/-- The producer/consumer scenario refuting C1 as stated: two ingestor
invocations with contiguous, monotonically increasing sequences at
`internal_decimation = 1` on ample buffers. -/
def c1_cex_state0 : IngestState :=
  ⟨buffers_create_resource 1000, buffers_create_resource 16, .RUNNING, []⟩

/-- First producer invocation of the C1 scenario: `seq = 0`, `count = 4`. -/
def c1_cex_step1 : RXContext × RXStats × IngestState :=
  rx_callback_step 0 4 'A' ⟨0xffffffff, 1⟩ ⟨0, 0⟩ c1_cex_state0 .RUNNING

/-- Second producer invocation of the C1 scenario: `seq = 4`, `count = 4`. -/
def c1_cex_step2 : RXContext × RXStats × IngestState :=
  rx_callback_step 4 4 'A' c1_cex_step1.1 c1_cex_step1.2.1 c1_cex_step1.2.2 .RUNNING

lemma usub32_eq_sub (a b : Nat) (hb : b ≤ a) (ha : a < U32) : usub32 a b = a - b := by
  unfold usub32
  rw [Nat.mod_eq_of_lt ha, Nat.mod_eq_of_lt (lt_of_le_of_lt hb ha)]
  have h1 : U32 + a - b = U32 + (a - b) := by omega
  rw [h1, Nat.add_mod_left]
  exact Nat.mod_eq_of_lt (by omega)

lemma usub32_eq_mod (a b : Nat) (ha : a < U32) (hb : b < U32) :
    usub32 a b = (U32 + a - b) % U32 := by
  unfold usub32
  rw [Nat.mod_eq_of_lt ha, Nat.mod_eq_of_lt hb]

lemma compute_dropped_eq_dist (next first : Nat) (hn : next < U32) (hf : first < U32)
    (hne : first ≠ next) :
    compute_dropped_samples next first =
      if next < first then first - next else next - first := by
  unfold compute_dropped_samples
  by_cases h : next < first
  · simp [h]
  · simp only [h, if_false]
    have hlt : first < next := by omega
    rw [usub32_eq_mod first next hf hn]
    have h2 : (U32 + first - next) % U32 = U32 + first - next :=
      Nat.mod_eq_of_lt (by omega)
    rw [h2]
    have h3 : UINT_MAX - (U32 + first - next) + 1 = next - first := by
      have : UINT_MAX + 1 = U32 := by unfold UINT_MAX U32; omega
      omega
    rw [h3]
    exact Nat.mod_eq_of_lt (by omega)

/-- C5 (corrected): for 32-bit `next` and `first` with `first ≠ next`, the
dropped-sample count computed by `rx_callback` and by `stream` equals the
plain difference `first - next` when `next < first`, and `next - first`
(not the mod-2^32 forward gap `(first - next) mod 2^32`) when
`next > first`; the detection only accumulates the per-channel counter:
the ingest outcome of `rx_callback` is exactly that of the circular-buffer
write, independent of the detection, and the gap handling of
`process_frame` never changes the streaming status. -/
theorem c5_dropped_samples_gap (next first : Nat) (hn : next < U32) (hf : first < U32)
    (hne : first ≠ next) (hinit : next ≠ 0xffffffff) :
    compute_dropped_samples next first =
      (if next < first then first - next else next - first) ∧
    (∀ (count : Nat) (rx : Char) (ctx : RXContext) (stats : RXStats) (st : IngestState),
      ctx.next_sample_num = next →
      (rx_callback_step first count rx ctx stats st .RUNNING).2.2 =
        (write_samples_to_circular_buffer count first rx st).1 ∧
      (rx_callback_step first count rx ctx stats st .RUNNING).2.1.dropped_samples =
        stats.dropped_samples + compute_dropped_samples next first) ∧
    (∀ (nrx dec thr : Nat) (ins : Nat → Int) (s : ConsumerState) (bA bB : BlockDescriptor),
      bA.num_samples ≠ 0 →
      (process_frame nrx dec thr ins s bA bB).streaming_status = s.streaming_status) := by
  refine ⟨compute_dropped_eq_dist next first hn hf hne, ?_, ?_⟩
  · intro count rx ctx stats st hctx
    constructor
    · simp [rx_callback_step]
    · simp [rx_callback_step, hctx, hinit, hne]
  · intro nrx dec thr ins s bA bB hns
    unfold process_frame
    simp only [hns, if_false]
    split <;> (try split) <;> rfl

/-- Witness for `c5_dropped_samples_gap` at `next = 9`, `first = 8`. -/
theorem c5_dropped_samples_gap_witness :
    (9:Nat) < U32 ∧ (8:Nat) < U32 ∧ (8:Nat) ≠ 9 ∧ (9:Nat) ≠ 0xffffffff ∧
    (compute_dropped_samples 9 8 =
      (if (9:Nat) < 8 then 8 - 9 else 9 - 8) ∧
    (∀ (count : Nat) (rx : Char) (ctx : RXContext) (stats : RXStats) (st : IngestState),
      ctx.next_sample_num = 9 →
      (rx_callback_step 8 count rx ctx stats st .RUNNING).2.2 =
        (write_samples_to_circular_buffer count 8 rx st).1 ∧
      (rx_callback_step 8 count rx ctx stats st .RUNNING).2.1.dropped_samples =
        stats.dropped_samples + compute_dropped_samples 9 8) ∧
    (∀ (nrx dec thr : Nat) (ins : Nat → Int) (s : ConsumerState) (bA bB : BlockDescriptor),
      bA.num_samples ≠ 0 →
      (process_frame nrx dec thr ins s bA bB).streaming_status = s.streaming_status)) :=
  ⟨by decide, by decide, by decide, by decide,
   c5_dropped_samples_gap 9 8 (by decide) (by decide) (by decide) (by decide)⟩

/-- C5 counterexample: with expected-next-sequence `9` and incoming
`first_sample_num = 8` the code adds `1` to the dropped counter, while the
wraparound-safe gap `(first - expected) mod 2^32` is `4294967295`. -/
theorem c5_counterexample_mod_gap :
    compute_dropped_samples 9 8 = 1 ∧ usub32 8 9 = 4294967295 ∧
    compute_dropped_samples 9 8 ≠ usub32 8 9 := by decide

/-- C6 counterexample: the expected-next-sequence update evaluated at
`first_sample_num = 0xFFFFFFF8`, `num_samples = 16`,
`internal_decimation = 1` yields `9`, not `8`. -/
theorem c6_counterexample_wrap_value :
    next_sample_num_update 0xFFFFFFF8 16 1 = 9 ∧
    next_sample_num_update 0xFFFFFFF8 16 1 ≠ 8 := by decide

/-- C6 (corrected): at `first_sample_num = 0xFFFFFFF8`, `num_samples = 16`,
`internal_decimation = 1` the update rule wraps the 32-bit sum to `8` and
then adds `1` because the low two bits of `8` are below `2`, yielding `9`;
a following invocation with `first_sample_num = 8` therefore reports a
spurious drop of exactly `1` sample. -/
theorem c6_wraparound_update :
    next_sample_num_update 0xFFFFFFF8 16 1 = 9 ∧
    (0xFFFFFFF8 + 16) % U32 = 8 ∧
    compute_dropped_samples (next_sample_num_update 0xFFFFFFF8 16 1) 8 = 1 := by decide

/-- C9 (confirmed): once the streaming status is a terminal state, the
sample ingestor invocation returns without touching the buffers, the event
ingestor invocation returns without touching the gain-changes buffer, and
the stream-loop guard is false, so the consumer loop exits. -/
theorem c9_terminal_states_quiesce (status : StreamingStatus)
    (first_sample_num num_samples : Nat) (rx_id : Char) (ctx : RXContext)
    (stats : RXStats) (st : IngestState) (is_gain_change : Bool)
    (g : ResourceDescriptor) (h : is_terminal_status status = true) :
    rx_callback_step first_sample_num num_samples rx_id ctx stats st status =
      (ctx, stats, st) ∧
    event_callback_step is_gain_change status g = (g, status) ∧
    stream_loop_guard status = false := by
  cases status <;> simp_all [rx_callback_step, event_callback_step,
    is_terminal_status, stream_loop_guard]

/-- Witness for `c9_terminal_states_quiesce` at status `DONE`. -/
theorem c9_terminal_states_quiesce_witness :
    is_terminal_status .DONE = true ∧
    (rx_callback_step 0 10 'A' ⟨0xffffffff, 1⟩ ⟨0, 0⟩
        ⟨buffers_create_resource 100, buffers_create_resource 4, .DONE, []⟩ .DONE =
      (⟨0xffffffff, 1⟩, ⟨0, 0⟩,
        ⟨buffers_create_resource 100, buffers_create_resource 4, .DONE, []⟩) ∧
    event_callback_step true .DONE (buffers_create_resource 4) =
      (buffers_create_resource 4, .DONE) ∧
    stream_loop_guard .DONE = false) :=
  ⟨by decide,
   c9_terminal_states_quiesce .DONE 0 10 'A' ⟨0xffffffff, 1⟩ ⟨0, 0⟩
     ⟨buffers_create_resource 100, buffers_create_resource 4, .DONE, []⟩ true
     (buffers_create_resource 4) (by decide)⟩

/-- C7 (corrected): every sample-ingestor invocation that observes status
`TERMINATE` emits one zero-length end-of-stream descriptor for its channel
(provided the descriptor buffer has space), leaving the per-channel context
and statistics untouched; there is no at-most-once guard, so the number of
end-of-stream descriptors equals the number of such invocations. -/
theorem c7_eos_per_terminate_invocation (first_sample_num num_samples : Nat)
    (rx_id : Char) (ctx : RXContext) (stats : RXStats) (st : IngestState)
    (h : st.blocks_resource.nused < st.blocks_resource.size) :
    (rx_callback_step first_sample_num num_samples rx_id ctx stats st
        .TERMINATE).2.2.blocks_written =
      st.blocks_written ++
        [{ first_sample_num := first_sample_num, num_samples := 0,
           samples_index := 0, rx_id := rx_id }] ∧
    (rx_callback_step first_sample_num num_samples rx_id ctx stats st
        .TERMINATE).2.2.blocks_resource.nused = st.blocks_resource.nused + 1 ∧
    (rx_callback_step first_sample_num num_samples rx_id ctx stats st
        .TERMINATE).1 = ctx ∧
    (rx_callback_step first_sample_num num_samples rx_id ctx stats st
        .TERMINATE).2.1 = stats := by
  simp [rx_callback_step, write_samples_to_circular_buffer, blocks_reserve, h]

/-- Witness for `c7_eos_per_terminate_invocation` on an empty 4-slot
descriptor buffer. -/
theorem c7_eos_per_terminate_invocation_witness :
    (buffers_create_resource 4).nused < (buffers_create_resource 4).size ∧
    ((rx_callback_step 50 10 'A' ⟨0xffffffff, 1⟩ ⟨0, 0⟩
        ⟨buffers_create_resource 100, buffers_create_resource 4, .TERMINATE, []⟩
        .TERMINATE).2.2.blocks_written =
      [] ++ [{ first_sample_num := 50, num_samples := 0,
               samples_index := 0, rx_id := 'A' }] ∧
    (rx_callback_step 50 10 'A' ⟨0xffffffff, 1⟩ ⟨0, 0⟩
        ⟨buffers_create_resource 100, buffers_create_resource 4, .TERMINATE, []⟩
        .TERMINATE).2.2.blocks_resource.nused = (buffers_create_resource 4).nused + 1 ∧
    (rx_callback_step 50 10 'A' ⟨0xffffffff, 1⟩ ⟨0, 0⟩
        ⟨buffers_create_resource 100, buffers_create_resource 4, .TERMINATE, []⟩
        .TERMINATE).1 = ⟨0xffffffff, 1⟩ ∧
    (rx_callback_step 50 10 'A' ⟨0xffffffff, 1⟩ ⟨0, 0⟩
        ⟨buffers_create_resource 100, buffers_create_resource 4, .TERMINATE, []⟩
        .TERMINATE).2.1 = ⟨0, 0⟩) :=
  ⟨by decide,
   c7_eos_per_terminate_invocation 50 10 'A' ⟨0xffffffff, 1⟩ ⟨0, 0⟩
     ⟨buffers_create_resource 100, buffers_create_resource 4, .TERMINATE, []⟩
     (by decide)⟩

/-- C7 counterexample: two sample-ingestor invocations that both observe
status `TERMINATE` (the consumer has not yet drained the first end-of-stream
descriptor) emit two zero-length end-of-stream descriptors for the same
channel, contradicting "at most one per channel". -/
theorem c7_counterexample_two_eos :
    ((rx_callback_step 60 10 'A' ⟨0xffffffff, 1⟩ ⟨0, 0⟩
        ((rx_callback_step 50 10 'A' ⟨0xffffffff, 1⟩ ⟨0, 0⟩
            ⟨buffers_create_resource 100, buffers_create_resource 4, .TERMINATE, []⟩
            .TERMINATE).2.2)
        .TERMINATE).2.2.blocks_written.filter
        (fun b => b.num_samples == 0 && b.rx_id == 'A')).length = 2 ∧
    ¬ ((rx_callback_step 60 10 'A' ⟨0xffffffff, 1⟩ ⟨0, 0⟩
        ((rx_callback_step 50 10 'A' ⟨0xffffffff, 1⟩ ⟨0, 0⟩
            ⟨buffers_create_resource 100, buffers_create_resource 4, .TERMINATE, []⟩
            .TERMINATE).2.2)
        .TERMINATE).2.2.blocks_written.filter
        (fun b => b.num_samples == 0 && b.rx_id == 'A')).length ≤ 1 := by
  refine ⟨rfl, ?_⟩
  decide

/-- C10 (confirmed): a concrete sample-ingestor invocation with
`num_samples = 5` on a state whose samples buffer has ample space but whose
descriptor buffer is full: the call fails with `-1` and status
`BLOCKS_BUFFER_FULL`, yet the samples buffer keeps `nused = 10 = 2 * 5`
reserved slots (no rollback), while the descriptor buffer itself is not
mutated; afterwards the status is terminal, so every further producer
invocation is a no-op and the stream loop guard is false, so the stranded
slots are never released. -/
theorem c10_blocks_full_leaves_samples_reserved :
    (write_samples_to_circular_buffer 5 0 'A'
      ⟨buffers_create_resource 100, ⟨0, 0, 2, 2, 2, 0⟩, .RUNNING, []⟩).2 = -1 ∧
    (write_samples_to_circular_buffer 5 0 'A'
      ⟨buffers_create_resource 100, ⟨0, 0, 2, 2, 2, 0⟩, .RUNNING, []⟩).1.streaming_status =
      .BLOCKS_BUFFER_FULL ∧
    (write_samples_to_circular_buffer 5 0 'A'
      ⟨buffers_create_resource 100, ⟨0, 0, 2, 2, 2, 0⟩, .RUNNING, []⟩).1.samples_resource.nused =
      (buffers_create_resource 100).nused + 2 * 5 ∧
    (write_samples_to_circular_buffer 5 0 'A'
      ⟨buffers_create_resource 100, ⟨0, 0, 2, 2, 2, 0⟩, .RUNNING, []⟩).1.blocks_resource =
      ⟨0, 0, 2, 2, 2, 0⟩ ∧
    (write_samples_to_circular_buffer 5 0 'A'
      ⟨buffers_create_resource 100, ⟨0, 0, 2, 2, 2, 0⟩, .RUNNING, []⟩).1.blocks_written = [] ∧
    stream_loop_guard .BLOCKS_BUFFER_FULL = false ∧
    (∀ (f c : Nat) (rx : Char) (ctx : RXContext) (stats : RXStats),
      rx_callback_step f c rx ctx stats
        (write_samples_to_circular_buffer 5 0 'A'
          ⟨buffers_create_resource 100, ⟨0, 0, 2, 2, 2, 0⟩, .RUNNING, []⟩).1
        .BLOCKS_BUFFER_FULL =
      (ctx, stats,
        (write_samples_to_circular_buffer 5 0 'A'
          ⟨buffers_create_resource 100, ⟨0, 0, 2, 2, 2, 0⟩, .RUNNING, []⟩).1)) := by
  refine ⟨rfl, rfl, rfl, rfl, rfl, rfl, ?_⟩
  intro f c rx ctx stats
  simp [rx_callback_step]

lemma samples_reserve_spec (r : ResourceDescriptor) (k : Nat)
    (hks : k ≤ r.size) (hw : r.write_index ≤ r.size) (hs : r.size < U32)
    (hskip : r.write_index + k > r.size → k ≤ r.write_index) :
    ((samples_reserve r k).has_enough_space = true ↔
      r.nused + k < r.size - samples_skipped_tail r k) ∧
    ((samples_reserve r k).has_enough_space = true →
      (samples_reserve r k).resource.nused = r.nused + k ∧
      (samples_reserve r k).resource.write_index =
        (if r.write_index + k > r.size then 0 else r.write_index) + k) ∧
    ((samples_reserve r k).has_enough_space = false →
      (samples_reserve r k).resource = r) := by
  have h1 : usub32 r.size k = r.size - k := usub32_eq_sub _ _ hks hs
  by_cases hsk : r.write_index > r.size - k
  · have ht : r.write_index + k > r.size := by omega
    have hkw : k ≤ r.write_index := hskip ht
    have h2 : usub32 r.size r.write_index = r.size - r.write_index :=
      usub32_eq_sub _ _ hw hs
    have h3 : usub32 (r.size - k) (r.size - r.write_index) =
        r.size - k - (r.size - r.write_index) :=
      usub32_eq_sub _ _ (by omega) (by omega)
    have hU : U32 = 4294967296 := rfl
    by_cases hu : r.nused < r.size - k - (r.size - r.write_index)
    · simp [samples_reserve, samples_skipped_tail, h1, h2, h3, hsk, ht, hu, hU]
      omega
    · simp [samples_reserve, samples_skipped_tail, h1, h2, h3, hsk, ht, hu, hU]
      omega
  · have ht : ¬ (r.write_index + k > r.size) := by omega
    have hU : U32 = 4294967296 := rfl
    by_cases hu : r.nused < r.size - k
    · simp [samples_reserve, samples_skipped_tail, h1, hsk, ht, hu, hU]
      omega
    · simp [samples_reserve, samples_skipped_tail, h1, hsk, ht, hu, hU]
      omega

lemma blocks_reserve_spec (r : ResourceDescriptor) :
    ((blocks_reserve r).has_enough_space = true ↔ r.nused + 1 ≤ r.size) ∧
    ((blocks_reserve r).has_enough_space = true →
      (blocks_reserve r).resource.nused = r.nused + 1) ∧
    ((blocks_reserve r).has_enough_space = false →
      (blocks_reserve r).resource = r) := by
  by_cases hu : r.nused < r.size
  · simp [blocks_reserve, hu]; omega
  · simp [blocks_reserve, hu]; omega

lemma gain_changes_reserve_spec (r : ResourceDescriptor) :
    ((gain_changes_reserve r).has_enough_space = true ↔ r.nused + 1 ≤ r.size) ∧
    ((gain_changes_reserve r).has_enough_space = true →
      (gain_changes_reserve r).resource.nused = r.nused + 1) ∧
    ((gain_changes_reserve r).has_enough_space = false →
      (gain_changes_reserve r).resource = r) := by
  by_cases hu : r.nused < r.size
  · simp [gain_changes_reserve, hu]; omega
  · simp [gain_changes_reserve, hu]; omega

/-- C2 (corrected): the descriptor and gain-change buffer reservations
succeed iff `used + 1 ≤ capacity`, increase `used` by exactly `1` on
success, and mutate nothing on failure.  The sample-buffer reservation of
size `k`, provided the request fits the array (`k ≤ capacity`,
`write_index ≤ capacity`, and `k ≤ write_index` whenever the contiguity
skip triggers), succeeds iff `used + k` is STRICTLY below the capacity
reduced by any skipped unusable tail — one slot stricter than the spec's
`used + k ≤ capacity` — increases `used` by exactly `k` on success, and
mutates nothing on failure. -/
theorem c2_reserve_contract (r : ResourceDescriptor) (k : Nat)
    (hks : k ≤ r.size) (hw : r.write_index ≤ r.size) (hs : r.size < U32)
    (hskip : r.write_index + k > r.size → k ≤ r.write_index) :
    ((samples_reserve r k).has_enough_space = true ↔
      r.nused + k < r.size - samples_skipped_tail r k) ∧
    ((samples_reserve r k).has_enough_space = true →
      (samples_reserve r k).resource.nused = r.nused + k) ∧
    ((samples_reserve r k).has_enough_space = false →
      (samples_reserve r k).resource = r) ∧
    ((blocks_reserve r).has_enough_space = true ↔ r.nused + 1 ≤ r.size) ∧
    ((blocks_reserve r).has_enough_space = true →
      (blocks_reserve r).resource.nused = r.nused + 1) ∧
    ((blocks_reserve r).has_enough_space = false →
      (blocks_reserve r).resource = r) ∧
    ((gain_changes_reserve r).has_enough_space = true ↔ r.nused + 1 ≤ r.size) ∧
    ((gain_changes_reserve r).has_enough_space = true →
      (gain_changes_reserve r).resource.nused = r.nused + 1) ∧
    ((gain_changes_reserve r).has_enough_space = false →
      (gain_changes_reserve r).resource = r) := by
  obtain ⟨hsa, hsb, hsc⟩ := samples_reserve_spec r k hks hw hs hskip
  obtain ⟨hba, hbb, hbc⟩ := blocks_reserve_spec r
  obtain ⟨hga, hgb, hgc⟩ := gain_changes_reserve_spec r
  exact ⟨hsa, fun h => (hsb h).1, hsc, hba, hbb, hbc, hga, hgb, hgc⟩

/-- Witness for `c2_reserve_contract`: a 10-slot buffer with 4 used slots,
write index 4, and a reservation of size 2. -/
theorem c2_reserve_contract_witness :
    (2 ≤ 10 ∧ 4 ≤ 10 ∧ 10 < U32 ∧ ((4:Nat) + 2 > 10 → 2 ≤ 4)) ∧
    (((samples_reserve ⟨0, 4, 10, 4, 4, 0⟩ 2).has_enough_space = true ↔
      (4:Nat) + 2 < 10 - samples_skipped_tail ⟨0, 4, 10, 4, 4, 0⟩ 2) ∧
    ((samples_reserve ⟨0, 4, 10, 4, 4, 0⟩ 2).has_enough_space = true →
      (samples_reserve ⟨0, 4, 10, 4, 4, 0⟩ 2).resource.nused = 4 + 2) ∧
    ((samples_reserve ⟨0, 4, 10, 4, 4, 0⟩ 2).has_enough_space = false →
      (samples_reserve ⟨0, 4, 10, 4, 4, 0⟩ 2).resource = ⟨0, 4, 10, 4, 4, 0⟩) ∧
    ((blocks_reserve ⟨0, 4, 10, 4, 4, 0⟩).has_enough_space = true ↔ (4:Nat) + 1 ≤ 10) ∧
    ((blocks_reserve ⟨0, 4, 10, 4, 4, 0⟩).has_enough_space = true →
      (blocks_reserve ⟨0, 4, 10, 4, 4, 0⟩).resource.nused = 4 + 1) ∧
    ((blocks_reserve ⟨0, 4, 10, 4, 4, 0⟩).has_enough_space = false →
      (blocks_reserve ⟨0, 4, 10, 4, 4, 0⟩).resource = ⟨0, 4, 10, 4, 4, 0⟩) ∧
    ((gain_changes_reserve ⟨0, 4, 10, 4, 4, 0⟩).has_enough_space = true ↔ (4:Nat) + 1 ≤ 10) ∧
    ((gain_changes_reserve ⟨0, 4, 10, 4, 4, 0⟩).has_enough_space = true →
      (gain_changes_reserve ⟨0, 4, 10, 4, 4, 0⟩).resource.nused = 4 + 1) ∧
    ((gain_changes_reserve ⟨0, 4, 10, 4, 4, 0⟩).has_enough_space = false →
      (gain_changes_reserve ⟨0, 4, 10, 4, 4, 0⟩).resource = ⟨0, 4, 10, 4, 4, 0⟩)) :=
  ⟨⟨by decide, by decide, by decide, by decide⟩,
   c2_reserve_contract ⟨0, 4, 10, 4, 4, 0⟩ 2 (by decide) (by decide) (by decide)
     (by decide)⟩

/-- C2 counterexample: a sample buffer of capacity 4 with 2 used slots,
write index 0, and a contiguously fitting reservation of size 2: the spec
predicate `used + k ≤ capacity` (no tail is skipped) says the reservation
succeeds, but the code's strict check `nused < size - k` rejects it. -/
theorem c2_counterexample_boundary :
    spec_reserve_succeeds 2 2 4 (samples_skipped_tail ⟨0, 0, 4, 2, 2, 0⟩ 2) ∧
    samples_skipped_tail ⟨0, 0, 4, 2, 2, 0⟩ 2 = 0 ∧
    (samples_reserve ⟨0, 0, 4, 2, 2, 0⟩ 2).has_enough_space = false := by
  refine ⟨?_, by decide, by decide⟩
  show 2 + 2 ≤ 4 - samples_skipped_tail ⟨0, 0, 4, 2, 2, 0⟩ 2
  decide

/-- C8 (corrected): starting from the `buffers_create` state (`used = 0`),
`used ≤ capacity` is preserved by every producer reservation and every
consumer release, and a failed reservation leaves the write index untouched
— PROVIDED each sample-buffer reservation fits the array (`k ≤ capacity`,
`write_index ≤ capacity`, and `k ≤ write_index` whenever the contiguity
skip triggers) and each release returns no more than is currently used;
the unsigned arithmetic of the skip adjustment breaks the invariant
otherwise. -/
theorem c8_used_le_capacity (r : ResourceDescriptor) (k n : Nat)
    (hks : k ≤ r.size) (hw : r.write_index ≤ r.size) (hs : r.size < U32)
    (hskip : r.write_index + k > r.size → k ≤ r.write_index)
    (hn : r.nused ≤ r.size) (hrel : n ≤ r.nused) :
    (buffers_create_resource r.size).nused = 0 ∧
    (samples_reserve r k).resource.nused ≤ r.size ∧
    ((samples_reserve r k).has_enough_space = false →
      (samples_reserve r k).resource.write_index = r.write_index) ∧
    (blocks_reserve r).resource.nused ≤ r.size ∧
    ((blocks_reserve r).has_enough_space = false →
      (blocks_reserve r).resource.write_index = r.write_index) ∧
    (gain_changes_reserve r).resource.nused ≤ r.size ∧
    ((gain_changes_reserve r).has_enough_space = false →
      (gain_changes_reserve r).resource.write_index = r.write_index) ∧
    (resource_release r n).nused = r.nused - n ∧
    (resource_release r n).nused ≤ r.size := by
  obtain ⟨hsa, hsb, hsc⟩ := samples_reserve_spec r k hks hw hs hskip
  obtain ⟨hba, hbb, hbc⟩ := blocks_reserve_spec r
  obtain ⟨hga, hgb, hgc⟩ := gain_changes_reserve_spec r
  have hrel1 : (resource_release r n).nused = r.nused - n := by
    have h1 : usub32 r.nused n = r.nused - n :=
      usub32_eq_sub _ _ hrel (lt_of_le_of_lt hn hs)
    simp [resource_release, h1]
  refine ⟨rfl, ?_, ?_, ?_, ?_, ?_, ?_, hrel1, ?_⟩
  · rcases hbool : (samples_reserve r k).has_enough_space with _ | _
    · rw [hsc hbool]; exact hn
    · have := (hsb hbool).1
      have hok := hsa.mp hbool
      omega
  · intro hbool; rw [hsc hbool]
  · rcases hbool : (blocks_reserve r).has_enough_space with _ | _
    · rw [hbc hbool]; exact hn
    · have := hbb hbool
      have hok := hba.mp hbool
      omega
  · intro hbool; rw [hbc hbool]
  · rcases hbool : (gain_changes_reserve r).has_enough_space with _ | _
    · rw [hgc hbool]; exact hn
    · have := hgb hbool
      have hok := hga.mp hbool
      omega
  · intro hbool; rw [hgc hbool]
  · omega

/-- Witness for `c8_used_le_capacity`: a 10-slot buffer with 4 used slots,
write index 6, a reservation of size 2 and a release of size 3. -/
theorem c8_used_le_capacity_witness :
    ((2:Nat) ≤ 10 ∧ (6:Nat) ≤ 10 ∧ (10:Nat) < U32 ∧ ((6:Nat) + 2 > 10 → 2 ≤ 6) ∧
      (4:Nat) ≤ 10 ∧ (3:Nat) ≤ 4) ∧
    ((buffers_create_resource 10).nused = 0 ∧
    (samples_reserve ⟨0, 6, 10, 4, 4, 0⟩ 2).resource.nused ≤ 10 ∧
    ((samples_reserve ⟨0, 6, 10, 4, 4, 0⟩ 2).has_enough_space = false →
      (samples_reserve ⟨0, 6, 10, 4, 4, 0⟩ 2).resource.write_index = 6) ∧
    (blocks_reserve ⟨0, 6, 10, 4, 4, 0⟩).resource.nused ≤ 10 ∧
    ((blocks_reserve ⟨0, 6, 10, 4, 4, 0⟩).has_enough_space = false →
      (blocks_reserve ⟨0, 6, 10, 4, 4, 0⟩).resource.write_index = 6) ∧
    (gain_changes_reserve ⟨0, 6, 10, 4, 4, 0⟩).resource.nused ≤ 10 ∧
    ((gain_changes_reserve ⟨0, 6, 10, 4, 4, 0⟩).has_enough_space = false →
      (gain_changes_reserve ⟨0, 6, 10, 4, 4, 0⟩).resource.write_index = 6) ∧
    (resource_release ⟨0, 6, 10, 4, 4, 0⟩ 3).nused = 4 - 3 ∧
    (resource_release ⟨0, 6, 10, 4, 4, 0⟩ 3).nused ≤ 10) :=
  ⟨⟨by decide, by decide, by decide, by decide, by decide, by decide⟩,
   c8_used_le_capacity ⟨0, 6, 10, 4, 4, 0⟩ 2 3 (by decide) (by decide) (by decide)
     (by decide) (by decide) (by decide)⟩

/-- C8 counterexample: on a fresh sample buffer of capacity 4 (`used = 0`),
a single producer reservation of `2 * num_samples = 6` slots is accepted by
the code (the unsigned `size - space` underflows to a huge bound) and leaves
`used = 6 > 4 = capacity`, violating the invariant; the same happens through
the full ingest path with `num_samples = 3`. -/
theorem c8_counterexample_oversized_request :
    (samples_reserve (buffers_create_resource 4) 6).has_enough_space = true ∧
    (samples_reserve (buffers_create_resource 4) 6).resource.nused = 6 ∧
    ¬ ((samples_reserve (buffers_create_resource 4) 6).resource.nused ≤
        (buffers_create_resource 4).size) ∧
    (write_samples_to_circular_buffer 3 0 'A'
      ⟨buffers_create_resource 4, buffers_create_resource 8, .RUNNING, []⟩).2 = 0 ∧
    (write_samples_to_circular_buffer 3 0 'A'
      ⟨buffers_create_resource 4, buffers_create_resource 8, .RUNNING,
        []⟩).1.samples_resource.nused = 6 := by
  refine ⟨rfl, rfl, ?_, rfl, rfl⟩
  decide

lemma zero_fill_total_cons (dec thr nxt : Nat) (b : BlockDescriptor)
    (rest : List BlockDescriptor) :
    zero_fill_total dec thr nxt (b :: rest) =
      gap_fill_amount thr nxt b.first_sample_num +
        zero_fill_total dec thr
          (next_sample_num_update b.first_sample_num b.num_samples dec) rest := by
  by_cases hg : nxt = 0xffffffff ∨ b.first_sample_num = nxt
  · simp [zero_fill_total, gap_fill_amount, hg]
  · by_cases hd : compute_dropped_samples nxt b.first_sample_num ≤ thr
    · simp [zero_fill_total, gap_fill_amount, hg, hd]
    · simp [zero_fill_total, gap_fill_amount, hg, hd]

lemma interleave_dual_length (ins : Nat → Int) (a b n : Nat) :
    (interleave_dual ins a b n).length = 4 * n := by
  unfold interleave_dual
  rw [List.length_flatMap]
  have hc : (List.length ∘ fun i =>
      [ins (a + i), ins (a + n + i), ins (b + i), ins (b + n + i)]) = fun _ => 4 := by
    funext i
    rfl
  rw [hc, List.map_const', List.sum_replicate, List.length_range, smul_eq_mul]
  omega

lemma interleave_single_length (ins : Nat → Int) (a n : Nat) :
    (interleave_single ins a n).length = 2 * n := by
  unfold interleave_single
  rw [List.length_flatMap]
  have hc : (List.length ∘ fun i => [ins (a + i), ins (a + n + i)]) = fun _ => 2 := by
    funext i
    rfl
  rw [hc, List.map_const', List.sum_replicate, List.length_range, smul_eq_mul]
  omega

lemma process_frame_fields (nrx dec thr : Nat) (ins : Nat → Int) (s : ConsumerState)
    (bA bB : BlockDescriptor) (h : bA.num_samples ≠ 0) :
    (process_frame nrx dec thr ins s bA bB).streaming_status = s.streaming_status ∧
    (process_frame nrx dec thr ins s bA bB).frames_written = s.frames_written + 1 ∧
    (process_frame nrx dec thr ins s bA bB).next_sample_num =
      next_sample_num_update bA.first_sample_num bA.num_samples dec ∧
    (process_frame nrx dec thr ins s bA bB).output_samples =
      s.output_samples + gap_fill_amount thr s.next_sample_num bA.first_sample_num +
        bA.num_samples ∧
    (process_frame nrx dec thr ins s bA bB).out_writes.getLast? =
      some (if nrx = 2 then
        interleave_dual ins bA.samples_index bB.samples_index bA.num_samples
      else interleave_single ins bA.samples_index bA.num_samples) := by
  by_cases hg : s.next_sample_num = 0xffffffff ∨ bA.first_sample_num = s.next_sample_num
  · simp [process_frame, gap_fill_amount, h, hg]
  · by_cases hd : compute_dropped_samples s.next_sample_num bA.first_sample_num ≤ thr
    · simp [process_frame, gap_fill_amount, h, hg, hd]
    · simp [process_frame, gap_fill_amount, h, hg, hd]

/-- C3 (confirmed): in dual-channel mode, when the two drained descriptors
carry tags `A` then `B`, identical `first_sample_num` and identical
`num_samples`, one interleaved frame of `num_samples` quadruples
(`4 * num_samples` values) is written and the status is unchanged; any
mismatch of tag, sequence or count sets the status to `FAILED`, on which the
stream-loop guard is false, so the loop exits. -/
theorem c3_dual_channel_pairing (dec thr : Nat) (ins : Nat → Int)
    (s : ConsumerState) (bA bB : BlockDescriptor) (hcount : 0 < bA.num_samples) :
    ((bA.rx_id = 'A' ∧ bB.rx_id = 'B' ∧ bA.first_sample_num = bB.first_sample_num ∧
        bA.num_samples = bB.num_samples) →
      (stream_iteration_dual dec thr ins s bA bB).streaming_status =
        s.streaming_status ∧
      (stream_iteration_dual dec thr ins s bA bB).frames_written =
        s.frames_written + 1 ∧
      (stream_iteration_dual dec thr ins s bA bB).out_writes.getLast? =
        some (interleave_dual ins bA.samples_index bB.samples_index bA.num_samples) ∧
      (interleave_dual ins bA.samples_index bB.samples_index bA.num_samples).length =
        4 * bA.num_samples) ∧
    (¬(bA.rx_id = 'A' ∧ bB.rx_id = 'B' ∧ bA.first_sample_num = bB.first_sample_num ∧
        bA.num_samples = bB.num_samples) →
      (stream_iteration_dual dec thr ins s bA bB).streaming_status = .FAILED ∧
      stream_loop_guard
        (stream_iteration_dual dec thr ins s bA bB).streaming_status = false) := by
  constructor
  · rintro ⟨h1, h2, h3, h4⟩
    have hns : bA.num_samples ≠ 0 := by omega
    obtain ⟨hs1, hs2, _, _, hs5⟩ := process_frame_fields 2 dec thr ins s bA bB hns
    have hiter : stream_iteration_dual dec thr ins s bA bB =
        process_frame 2 dec thr ins s bA bB := by
      simp [stream_iteration_dual, h1, h2, h3, h4]
    rw [hiter]
    refine ⟨hs1, hs2, ?_, interleave_dual_length ins bA.samples_index bB.samples_index
      bA.num_samples⟩
    simpa using hs5
  · intro hmis
    have hfail : (stream_iteration_dual dec thr ins s bA bB).streaming_status =
        .FAILED := by
      by_cases ht : bA.rx_id = 'A' ∧ bB.rx_id = 'B'
      · by_cases hf : bA.first_sample_num = bB.first_sample_num
        · by_cases hn : bA.num_samples = bB.num_samples
          · exact absurd ⟨ht.1, ht.2, hf, hn⟩ hmis
          · simp [stream_iteration_dual, ht, hf, hn]
        · simp [stream_iteration_dual, ht, hf]
      · simp [stream_iteration_dual, ht]
    rw [hfail]
    exact ⟨rfl, rfl⟩

/-- Witness for `c3_dual_channel_pairing`: the spec's example pair
`{A, seq=100, count=50}` / `{B, seq=100, count=50}`. -/
theorem c3_dual_channel_pairing_witness :
    (0:Nat) < 50 ∧
    (((('A':Char) = 'A' ∧ ('B':Char) = 'B' ∧ (100:Nat) = 100 ∧ (50:Nat) = 50) →
      (stream_iteration_dual 1 100000 (fun _ => 0) initial_consumer_state
        ⟨100, 50, 0, 'A'⟩ ⟨100, 50, 100, 'B'⟩).streaming_status =
        initial_consumer_state.streaming_status ∧
      (stream_iteration_dual 1 100000 (fun _ => 0) initial_consumer_state
        ⟨100, 50, 0, 'A'⟩ ⟨100, 50, 100, 'B'⟩).frames_written =
        initial_consumer_state.frames_written + 1 ∧
      (stream_iteration_dual 1 100000 (fun _ => 0) initial_consumer_state
        ⟨100, 50, 0, 'A'⟩ ⟨100, 50, 100, 'B'⟩).out_writes.getLast? =
        some (interleave_dual (fun _ => 0) 0 100 50) ∧
      (interleave_dual (fun _ => 0) 0 100 50).length = 4 * 50) ∧
    (¬(('A':Char) = 'A' ∧ ('B':Char) = 'B' ∧ (100:Nat) = 100 ∧ (50:Nat) = 50) →
      (stream_iteration_dual 1 100000 (fun _ => 0) initial_consumer_state
        ⟨100, 50, 0, 'A'⟩ ⟨100, 50, 100, 'B'⟩).streaming_status = .FAILED ∧
      stream_loop_guard
        (stream_iteration_dual 1 100000 (fun _ => 0) initial_consumer_state
          ⟨100, 50, 0, 'A'⟩ ⟨100, 50, 100, 'B'⟩).streaming_status = false)) :=
  ⟨by decide,
   c3_dual_channel_pairing 1 100000 (fun _ => 0) initial_consumer_state
     ⟨100, 50, 0, 'A'⟩ ⟨100, 50, 100, 'B'⟩ (by decide)⟩

/-- C4 (confirmed): for a frame whose `first_sample_num` differs from the
initialized expected-next-sequence, with computed gap
`g = compute_dropped_samples`, if `g` is at most the threshold then exactly
one zero write of `g` interleaved output frames (`g * nrx * 2` zero values)
is emitted immediately before the data frame and `g` is counted into
`output_samples`; if `g` exceeds the threshold, only the data frame is
written and nothing is synthesized for the gap. -/
theorem c4_gap_policy (nrx dec thr : Nat) (ins : Nat → Int) (s : ConsumerState)
    (bA bB : BlockDescriptor) (hcount : 0 < bA.num_samples)
    (hgap : ¬(s.next_sample_num = 0xffffffff ∨
      bA.first_sample_num = s.next_sample_num)) :
    (compute_dropped_samples s.next_sample_num bA.first_sample_num ≤ thr →
      (process_frame nrx dec thr ins s bA bB).out_writes =
        s.out_writes ++
          [List.replicate
            (compute_dropped_samples s.next_sample_num bA.first_sample_num * nrx * 2) 0,
           if nrx = 2 then
             interleave_dual ins bA.samples_index bB.samples_index bA.num_samples
           else interleave_single ins bA.samples_index bA.num_samples] ∧
      (process_frame nrx dec thr ins s bA bB).output_samples =
        s.output_samples +
          compute_dropped_samples s.next_sample_num bA.first_sample_num +
          bA.num_samples) ∧
    (thr < compute_dropped_samples s.next_sample_num bA.first_sample_num →
      (process_frame nrx dec thr ins s bA bB).out_writes =
        s.out_writes ++
          [if nrx = 2 then
             interleave_dual ins bA.samples_index bB.samples_index bA.num_samples
           else interleave_single ins bA.samples_index bA.num_samples] ∧
      (process_frame nrx dec thr ins s bA bB).output_samples =
        s.output_samples + bA.num_samples) := by
  have hns : bA.num_samples ≠ 0 := by omega
  constructor
  · intro hd
    simp [process_frame, hns, hgap, hd]
  · intro hd
    have hd2 : ¬ (compute_dropped_samples s.next_sample_num bA.first_sample_num ≤ thr) := by
      omega
    simp [process_frame, hns, hgap, hd2]

/-- Witness for `c4_gap_policy`: expected-next-sequence 100, incoming frame
at 105 (gap 5), threshold 100000, single tuner. -/
theorem c4_gap_policy_witness :
    (0:Nat) < 50 ∧
    ¬((100:Nat) = 0xffffffff ∨ (105:Nat) = 100) ∧
    ((compute_dropped_samples 100 105 ≤ 100000 →
      (process_frame 1 1 100000 (fun _ => 0)
        ⟨100, 0, 0, [], .RUNNING⟩ ⟨105, 50, 0, 'A'⟩ ⟨105, 50, 0, 'A'⟩).out_writes =
        [] ++
          [List.replicate (compute_dropped_samples 100 105 * 1 * 2) 0,
           if (1:Nat) = 2 then interleave_dual (fun _ => 0) 0 0 50
           else interleave_single (fun _ => 0) 0 50] ∧
      (process_frame 1 1 100000 (fun _ => 0)
        ⟨100, 0, 0, [], .RUNNING⟩ ⟨105, 50, 0, 'A'⟩ ⟨105, 50, 0, 'A'⟩).output_samples =
        0 + compute_dropped_samples 100 105 + 50) ∧
    (100000 < compute_dropped_samples 100 105 →
      (process_frame 1 1 100000 (fun _ => 0)
        ⟨100, 0, 0, [], .RUNNING⟩ ⟨105, 50, 0, 'A'⟩ ⟨105, 50, 0, 'A'⟩).out_writes =
        [] ++
          [if (1:Nat) = 2 then interleave_dual (fun _ => 0) 0 0 50
           else interleave_single (fun _ => 0) 0 50] ∧
      (process_frame 1 1 100000 (fun _ => 0)
        ⟨100, 0, 0, [], .RUNNING⟩ ⟨105, 50, 0, 'A'⟩ ⟨105, 50, 0, 'A'⟩).output_samples =
        0 + 50)) :=
  ⟨by decide, by decide,
   c4_gap_policy 1 1 100000 (fun _ => 0) ⟨100, 0, 0, [], .RUNNING⟩
     ⟨105, 50, 0, 'A'⟩ ⟨105, 50, 0, 'A'⟩ (by decide) (by decide)⟩

lemma consume_run_fields (dec thr : Nat) (ins : Nat → Int) :
    ∀ (blocks : List BlockDescriptor) (s : ConsumerState),
      s.streaming_status = .RUNNING →
      (∀ b ∈ blocks, 0 < b.num_samples ∧ b.rx_id = 'A') →
      (consume_run dec thr ins s blocks).streaming_status = .RUNNING ∧
      (consume_run dec thr ins s blocks).frames_written =
        s.frames_written + blocks.length ∧
      (consume_run dec thr ins s blocks).output_samples =
        s.output_samples + (blocks.map BlockDescriptor.num_samples).sum +
          zero_fill_total dec thr s.next_sample_num blocks := by
  intro blocks
  induction blocks with
  | nil =>
    intro s hs _
    simp [consume_run, zero_fill_total, hs]
  | cons b rest ih =>
    intro s hs hall
    have hb := hall b (List.mem_cons_self b rest)
    have hrest : ∀ x ∈ rest, 0 < x.num_samples ∧ x.rx_id = 'A' :=
      fun x hx => hall x (List.mem_cons_of_mem b hx)
    have hns : b.num_samples ≠ 0 := by omega
    have hguard : stream_loop_guard s.streaming_status = true := by
      rw [hs]; rfl
    have h0 : consume_run dec thr ins s (b :: rest) =
        consume_run dec thr ins (process_frame 1 dec thr ins s b b) rest := by
      simp only [consume_run, List.foldl_cons, hguard, if_true,
        stream_iteration_single, hb.2]
      simp
    obtain ⟨f1, f2, f3, f4, f5⟩ := process_frame_fields 1 dec thr ins s b b hns
    have hs1 : (process_frame 1 dec thr ins s b b).streaming_status = .RUNNING := by
      rw [f1]; exact hs
    obtain ⟨g1, g2, g3⟩ := ih (process_frame 1 dec thr ins s b b) hs1 hrest
    rw [h0]
    refine ⟨g1, ?_, ?_⟩
    · rw [g2, f2]
      simp [List.length_cons]
      omega
    · rw [g3, f4, f3, zero_fill_total_cons]
      simp [List.map_cons]
      omega

/-- C1 (corrected): when a single-channel consumer drains `N` blocks each
with `num_samples > 0` and tag `A`, with non-overlapping mod-2^32
monotonically increasing sequence numbers and no overflow, it writes exactly
`N` interleaved data frames, but `stats.output_samples` equals the sum of
all `num_samples` PLUS the total number of zero-filled gap samples — the
zero-fill synthesis of the gap policy is counted into the same counter. -/
theorem c1_frame_and_sample_totals (dec thr : Nat) (ins : Nat → Int)
    (blocks : List BlockDescriptor)
    (hpos : ∀ b ∈ blocks, 0 < b.num_samples ∧ b.rx_id = 'A')
    (_hmono : blocks_seq_monotone blocks = true) :
    (consume_run dec thr ins initial_consumer_state blocks).frames_written =
      blocks.length ∧
    (consume_run dec thr ins initial_consumer_state blocks).output_samples =
      (blocks.map BlockDescriptor.num_samples).sum +
        zero_fill_total dec thr 0xffffffff blocks := by
  obtain ⟨_, h2, h3⟩ :=
    consume_run_fields dec thr ins blocks initial_consumer_state rfl hpos
  constructor
  · rw [h2]
    simp [initial_consumer_state]
  · rw [h3]
    simp [initial_consumer_state]

/-- Witness for `c1_frame_and_sample_totals`: one block of 4 samples. -/
theorem c1_frame_and_sample_totals_witness :
    (∀ b ∈ ([⟨0, 4, 0, 'A'⟩] : List BlockDescriptor),
      0 < b.num_samples ∧ b.rx_id = 'A') ∧
    blocks_seq_monotone [⟨0, 4, 0, 'A'⟩] = true ∧
    ((consume_run 1 100000 (fun _ => 0) initial_consumer_state
        [⟨0, 4, 0, 'A'⟩]).frames_written =
      ([⟨0, 4, 0, 'A'⟩] : List BlockDescriptor).length ∧
    (consume_run 1 100000 (fun _ => 0) initial_consumer_state
        [⟨0, 4, 0, 'A'⟩]).output_samples =
      (([⟨0, 4, 0, 'A'⟩] : List BlockDescriptor).map
        BlockDescriptor.num_samples).sum +
        zero_fill_total 1 100000 0xffffffff [⟨0, 4, 0, 'A'⟩]) :=
  ⟨by decide, by decide,
   c1_frame_and_sample_totals 1 100000 (fun _ => 0) [⟨0, 4, 0, 'A'⟩]
     (by decide) (by decide)⟩

/-- C1 counterexample: two producer invocations with contiguous
(non-overlapping, monotonically increasing) sequences `(0,4)` then `(4,4)`
and no overflow yield N = 2 frames, but the consumer's expected-next-sequence
after the first block is 5 (the rounding rule adds 1 at decimation 1), so a
1-sample gap is zero-filled and `stats.output_samples = 9 ≠ 8`, the sum of
the `sample_count` values. -/
theorem c1_counterexample_output_total :
    c1_cex_step2.2.2.streaming_status = .RUNNING ∧
    c1_cex_step2.2.2.blocks_written =
      [⟨0, 4, 0, 'A'⟩, ⟨4, 4, 8, 'A'⟩] ∧
    (∀ b ∈ c1_cex_step2.2.2.blocks_written, 0 < b.num_samples ∧ b.rx_id = 'A') ∧
    blocks_seq_monotone c1_cex_step2.2.2.blocks_written = true ∧
    (consume_run 1 100000 (fun _ => 0) initial_consumer_state
        c1_cex_step2.2.2.blocks_written).frames_written = 2 ∧
    (consume_run 1 100000 (fun _ => 0) initial_consumer_state
        c1_cex_step2.2.2.blocks_written).output_samples = 9 ∧
    (c1_cex_step2.2.2.blocks_written.map BlockDescriptor.num_samples).sum = 8 ∧
    (9:Nat) ≠ 8 := by
  refine ⟨rfl, rfl, ?_, rfl, rfl, rfl, rfl, by omega⟩
  decide
